import Mathlib

/-!
Verification of the camera streaming and capture subsystem of the
QueenBee-Hive UI repository (`src/src-tauri/src/camera.rs`), as a shallow
embedding in Lean 4.

The embedding models:
  * the fixed capture constants (`CAMERA_WIDTH`, `CAMERA_HEIGHT`,
    `JPEG_QUALITY`, `TARGET_FPS`);
  * the base64 transport encoding used for the `camera-frame` event payload;
  * one iteration of the worker's capture cycle (`runCycle`, faithful to the
    body of the main loop in `run_camera_stream`);
  * the whole worker body `run_camera_stream` (open camera, open stream,
    loop over cycles until the stop signal is observed, then drain);
  * the `stop_camera_stream` command with its 50 ms / 50-attempt poll loop;
  * the `capture_photo` command with the filesystem and clock abstracted as
    an environment record;
  * a small interleaving transition system for `start_camera_stream` and the
    spawned worker's first and last instructions, used to analyse the
    at-most-one-worker invariant.

External effects (camera device, filesystem, clock, event sink) are passed
in as environment values, and every emitted event, filesystem operation and
sleep is recorded in the result so the theorems can speak about them.
-/

namespace QueenBee

/-! ## Fixed capture profile constants (camera.rs lines 31-38) -/

def CAMERA_WIDTH : Nat := 640

def CAMERA_HEIGHT : Nat := 480

def JPEG_QUALITY : Nat := 85

def TARGET_FPS : Nat := 25

/-! ## Base64 (the `STANDARD` engine used for the frame payload)

Bytes are modelled as natural numbers below 256.  `base64Encode` produces the
padded standard alphabet encoding; `base64Decode` is its inverse. -/

def sextetToChar (n : Nat) : Char :=
  if n < 26 then Char.ofNat (65 + n)
  else if n < 52 then Char.ofNat (97 + (n - 26))
  else if n < 62 then Char.ofNat (48 + (n - 52))
  else if n = 62 then '+'
  else '/'

def charToSextet (c : Char) : Option Nat :=
  if 65 ≤ c.toNat ∧ c.toNat ≤ 90 then some (c.toNat - 65)
  else if 97 ≤ c.toNat ∧ c.toNat ≤ 122 then some (c.toNat - 97 + 26)
  else if 48 ≤ c.toNat ∧ c.toNat ≤ 57 then some (c.toNat - 48 + 52)
  else if c = '+' then some 62
  else if c = '/' then some 63
  else none

def base64Encode : List Nat → List Char
  | [] => []
  | [a] =>
      [sextetToChar (a / 4), sextetToChar (a % 4 * 16), '=', '=']
  | [a, b] =>
      [sextetToChar (a / 4), sextetToChar (a % 4 * 16 + b / 16),
       sextetToChar (b % 16 * 4), '=']
  | a :: b :: c :: rest =>
      sextetToChar (a / 4) :: sextetToChar (a % 4 * 16 + b / 16) ::
      sextetToChar (b % 16 * 4 + c / 64) :: sextetToChar (c % 64) ::
      base64Encode rest

def base64Decode : List Char → Option (List Nat)
  | [] => some []
  | c1 :: c2 :: c3 :: c4 :: rest =>
      match charToSextet c1, charToSextet c2 with
      | some s1, some s2 =>
          if c3 = '=' then
            if c4 = '=' ∧ rest = [] then some [s1 * 4 + s2 / 16] else none
          else
            match charToSextet c3 with
            | some s3 =>
                if c4 = '=' then
                  if rest = [] then
                    some [s1 * 4 + s2 / 16, s2 % 16 * 16 + s3 / 4]
                  else none
                else
                  match charToSextet c4, base64Decode rest with
                  | some s4, some tl =>
                      some ((s1 * 4 + s2 / 16) :: (s2 % 16 * 16 + s3 / 4) ::
                            (s3 % 4 * 64 + s4) :: tl)
                  | _, _ => none
            | none => none
      | _, _ => none
  | _ => none

/-! ## Events emitted to the GUI layer -/

inductive Event where
  | cameraFrame (data : String) (width : Nat) (height : Nat)
  | cameraError (message : String)
  | photoSaved (path : String) (success : Bool) (error : Option String)
deriving DecidableEq

/-! ## One capture cycle (body of the main loop in `run_camera_stream`)

The camera device and the JPEG codec are abstracted: `CycleEnv.frameRes`
is the outcome of `camera.frame()` followed by `decode_image::<RgbFormat>()`
(`Except.error e` = frame pull failure, `Except.ok none` = decode failure,
`Except.ok (some d)` = decoded pixel buffer), and the JPEG encoder is a
function `enc : quality → pixels → Option jpegBytes` passed in; `none`
models `encode_image` returning an error.  `encodeCalls` records every
invocation of the encoder, `logs` records `eprintln` output, and `sleepNs`
the pacing sleep performed at the end of the cycle. -/

structure DecodedImage where
  width : Nat
  height : Nat
  pixels : List Nat
deriving DecidableEq

structure CycleEnv where
  frameRes : Except String (Option DecodedImage)
  elapsedNs : Nat

structure CycleResult where
  slot : Option (List Nat)
  events : List Event
  encodeCalls : List (Nat × List Nat)
  logs : List String
  sleepNs : Nat

def FRAME_INTERVAL_NS : Nat := 1000 / TARGET_FPS * 1000000

def paceSleepNs (elapsedNs : Nat) : Nat :=
  if elapsedNs < FRAME_INTERVAL_NS then FRAME_INTERVAL_NS - elapsedNs else 0

def cycleCore (enc : Nat → List Nat → Option (List Nat)) (env : CycleEnv)
    (slot : Option (List Nat)) : CycleResult :=
  match env.frameRes with
  | Except.error e => ⟨slot, [], [], ["Camera frame error: " ++ e], 0⟩
  | Except.ok none => ⟨slot, [], [], [], 0⟩
  | Except.ok (some d) =>
      if d.width * d.height * 3 ≤ d.pixels.length then
        match enc JPEG_QUALITY d.pixels with
        | none => ⟨slot, [], [(JPEG_QUALITY, d.pixels)], [], 0⟩
        | some jpeg =>
            ⟨some jpeg,
             [Event.cameraFrame
                ("data:image/jpeg;base64," ++ String.mk (base64Encode jpeg))
                d.width d.height],
             [(JPEG_QUALITY, d.pixels)], [], 0⟩
      else ⟨slot, [], [], [], 0⟩

def runCycle (enc : Nat → List Nat → Option (List Nat)) (env : CycleEnv)
    (slot : Option (List Nat)) : CycleResult :=
  { cycleCore enc env slot with sleepNs := paceSleepNs env.elapsedNs }

/-- Whether a cycle reaches the publish step: the frame was pulled and
decoded, the image buffer was constructed, and the JPEG encode succeeded. -/
def cycleSucceeds (enc : Nat → List Nat → Option (List Nat))
    (env : CycleEnv) : Bool :=
  match env.frameRes with
  | Except.ok (some d) =>
      decide (d.width * d.height * 3 ≤ d.pixels.length) &&
        (enc JPEG_QUALITY d.pixels).isSome
  | _ => false

/-- The streaming loop: one `runCycle` per element of the list; the stop
signal is observed at the top of the following iteration. -/
def runCycles (enc : Nat → List Nat → Option (List Nat)) :
    List CycleEnv → Option (List Nat) → Option (List Nat) × List Event
  | [], slot => (slot, [])
  | c :: rest, slot =>
      let r := runCycle enc c slot
      let t := runCycles enc rest r.slot
      (t.1, r.events ++ t.2)

/-! ## The worker body `run_camera_stream`

`openCamera` models `Camera::new(CameraIndex::Index(0), requested)` and
`openStream` models `camera.open_stream()`.  `cycles` lists the per-cycle
environments the loop sees before the stop signal is observed.  The worker
stores `running := true` on entry; the result records the state of both
flags, the shared slot, the emitted events, whether `stop_stream` was
called, and whether the loop was entered at all. -/

structure WorkerEnv where
  openCamera : Except String Unit
  openStream : Except String Unit
  cycles : List CycleEnv

structure WorkerResult where
  running : Bool
  stopSignal : Bool
  slot : Option (List Nat)
  events : List Event
  released : Bool
  enteredLoop : Bool

def run_camera_stream (enc : Nat → List Nat → Option (List Nat))
    (env : WorkerEnv) (slot0 : Option (List Nat)) (stopSignal0 : Bool) :
    WorkerResult :=
  match env.openCamera with
  | Except.error e =>
      ⟨false, stopSignal0, slot0,
       [Event.cameraError ("Failed to open camera: " ++ e)], false, false⟩
  | Except.ok _ =>
      match env.openStream with
      | Except.error e =>
          ⟨false, stopSignal0, slot0,
           [Event.cameraError ("Failed to start camera stream: " ++ e)],
           false, false⟩
      | Except.ok _ =>
          let t := runCycles enc env.cycles slot0
          ⟨false, false, none, t.2, true, true⟩

/-! ## `stop_camera_stream`

The values of `CAMERA_RUNNING` seen by the command's successive loads are
supplied by an oracle `obs : Nat → Bool` (load 0 is the initial guard, loads
1, 2, … the loop-condition loads, and one final load decides the result).
The result records the write performed on `STOP_SIGNAL` and the duration of
every sleep, in milliseconds. -/

structure StopResult where
  result : Except String String
  stopSignalWrites : List Bool
  sleepsMs : List Nat

/-- The poll loop `while CAMERA_RUNNING.load(...) && attempts < 50`.
Returns the final number of attempts (= sleeps performed) and the index of
the last load the loop condition consumed. -/
def stopPoll (obs : Nat → Bool) (attempts : Nat) (idx : Nat) : Nat × Nat :=
  if obs idx ∧ attempts < 50 then stopPoll obs (attempts + 1) (idx + 1)
  else (attempts, idx)
termination_by 50 - attempts
decreasing_by omega

def stop_camera_stream (obs : Nat → Bool) : StopResult :=
  if obs 0 = false then ⟨Except.ok "Camera not running", [], []⟩
  else
    let p := stopPoll obs 0 1
    if obs (p.2 + 1) then
      ⟨Except.error "Camera failed to stop in time", [true],
       List.replicate p.1 50⟩
    else
      ⟨Except.ok "Camera stream stopped", [true], List.replicate p.1 50⟩

/-! ## `capture_photo`

The filesystem and the local clock are abstracted into `PhotoEnv`; every
attempted filesystem operation is recorded in the outcome, and the slot and
the controller flags are threaded through so the theorems can state that
the command leaves them untouched. -/

structure LocalTime where
  year : Nat
  month : Nat
  day : Nat
  hour : Nat
  minute : Nat
  second : Nat
deriving DecidableEq

def pad2 (n : Nat) : String :=
  if n < 10 then "0" ++ toString n else toString n

def pad4 (n : Nat) : String :=
  if n < 10 then "000" ++ toString n
  else if n < 100 then "00" ++ toString n
  else if n < 1000 then "0" ++ toString n
  else toString n

/-- `Local::now().format("%Y%m%d_%H%M%S")`. -/
def formatTimestamp (t : LocalTime) : String :=
  pad4 t.year ++ pad2 t.month ++ pad2 t.day ++ "_" ++
    pad2 t.hour ++ pad2 t.minute ++ pad2 t.second

structure PhotoSaved where
  path : String
  success : Bool
  error : Option String
deriving DecidableEq

inductive FsOp where
  | createDir (path : String)
  | writeFile (path : String) (bytes : List Nat)
deriving DecidableEq

structure CamFlags where
  running : Bool
  stopSignal : Bool
deriving DecidableEq

structure PhotoEnv where
  picturesDir : Option String
  dirExists : Bool
  createDirRes : Except String Unit
  writeRes : Except String Unit
  now : LocalTime

structure PhotoOutcome where
  result : Except String PhotoSaved
  events : List Event
  fsOps : List FsOp
  slot : Option (List Nat)
  flags : CamFlags

/-- The tail of `capture_photo` once the camera directory is known to exist:
build the timestamped filename and write the JPEG bytes. -/
def writePhase (env : PhotoEnv) (data : List Nat) (cameraDir : String)
    (ops : List FsOp) (slot : Option (List Nat)) (flags : CamFlags) :
    PhotoOutcome :=
  let filename := "IMG_" ++ formatTimestamp env.now ++ ".jpg"
  let filepath := cameraDir ++ "/" ++ filename
  match env.writeRes with
  | Except.error e =>
      let r : PhotoSaved := ⟨"", false, some ("Failed to save photo: " ++ e)⟩
      ⟨Except.ok r, [Event.photoSaved r.path r.success r.error],
       ops ++ [FsOp.writeFile filepath data], slot, flags⟩
  | Except.ok _ =>
      let r : PhotoSaved := ⟨filepath, true, none⟩
      ⟨Except.ok r, [Event.photoSaved r.path r.success r.error],
       ops ++ [FsOp.writeFile filepath data], slot, flags⟩

def capture_photo (env : PhotoEnv) (slot : Option (List Nat))
    (flags : CamFlags) : PhotoOutcome :=
  match slot with
  | none =>
      let r : PhotoSaved :=
        ⟨"", false, some "No frame available. Is the camera streaming?"⟩
      ⟨Except.ok r, [Event.photoSaved r.path r.success r.error], [],
       slot, flags⟩
  | some data =>
      match env.picturesDir with
      | none => ⟨Except.error "Failed to get Pictures directory", [], [],
                 slot, flags⟩
      | some pics =>
          let cameraDir := pics ++ "/honeybee-camera"
          if env.dirExists then
            writePhase env data cameraDir [] slot flags
          else
            match env.createDirRes with
            | Except.error e =>
                ⟨Except.error ("Failed to create camera directory: " ++ e),
                 [], [FsOp.createDir cameraDir], slot, flags⟩
            | Except.ok _ =>
                writePhase env data cameraDir [FsOp.createDir cameraDir]
                  slot flags

/-! ## Start / worker interleaving (for the at-most-one-worker invariant)

`start_camera_stream` is the command handler exactly as written: it loads
`CAMERA_RUNNING`, and when it is false it stores `false` to `STOP_SIGNAL`
and spawns a thread.  The spawned worker's externally relevant flag
instructions are its first action (`CAMERA_RUNNING.store(true)`, phase
`spawned → streaming`) and its cleanup (`streaming → done`, which also
clears the flags). -/

inductive WorkerPhase where
  | spawned
  | streaming
  | done
deriving DecidableEq

structure SysState where
  running : Bool
  stopSignal : Bool
  workers : List WorkerPhase
deriving DecidableEq

def start_camera_stream (s : SysState) : SysState × String :=
  if s.running then (s, "Camera already running")
  else
    ({ s with
        stopSignal := false
        workers := s.workers ++ [WorkerPhase.spawned] },
     "Camera stream started")

inductive SysAction where
  | callStart
  | workerBegin (i : Nat)
  | workerFinish (i : Nat)

def sysStep (a : SysAction) (s : SysState) : SysState :=
  match a with
  | SysAction.callStart => (start_camera_stream s).1
  | SysAction.workerBegin i =>
      match s.workers[i]? with
      | some WorkerPhase.spawned =>
          { s with running := true,
                   workers := s.workers.set i WorkerPhase.streaming }
      | _ => s
  | SysAction.workerFinish i =>
      match s.workers[i]? with
      | some WorkerPhase.streaming =>
          if s.stopSignal then
            { s with running := false, stopSignal := false,
                     workers := s.workers.set i WorkerPhase.done }
          else s
      | _ => s

def execTrace (as : List SysAction) (s : SysState) : SysState :=
  as.foldl (fun st a => sysStep a st) s

def activeWorkers (s : SysState) : Nat :=
  (s.workers.filter (fun w => w ≠ WorkerPhase.done)).length

def streamingWorkers (s : SysState) : Nat :=
  (s.workers.filter (fun w => w = WorkerPhase.streaming)).length

def initSys : SysState := ⟨false, false, []⟩

/-! ## Helper lemmas -/

theorem charToSextet_sextetToChar_fin :
    ∀ s : Fin 64, charToSextet (sextetToChar s.1) = some s.1 := by decide

theorem sextetToChar_ne_pad_fin : ∀ s : Fin 64, sextetToChar s.1 ≠ '=' := by
  decide

theorem charToSextet_sextetToChar {s : Nat} (h : s < 64) :
    charToSextet (sextetToChar s) = some s :=
  charToSextet_sextetToChar_fin ⟨s, h⟩

theorem sextetToChar_ne_pad {s : Nat} (h : s < 64) : sextetToChar s ≠ '=' :=
  sextetToChar_ne_pad_fin ⟨s, h⟩

theorem base64_roundtrip :
    ∀ l : List Nat, (∀ x ∈ l, x < 256) → base64Decode (base64Encode l) = some l
  | [], _ => rfl
  | [a], h => by
      have ha : a < 256 := h a (by simp)
      have h1 : a / 4 < 64 := by omega
      have h2 : a % 4 * 16 < 64 := by omega
      simp only [base64Encode, base64Decode,
        charToSextet_sextetToChar h1, charToSextet_sextetToChar h2]
      simp
      omega
  | [a, b], h => by
      have ha : a < 256 := h a (by simp)
      have hb : b < 256 := h b (by simp)
      have h1 : a / 4 < 64 := by omega
      have h2 : a % 4 * 16 + b / 16 < 64 := by omega
      have h3 : b % 16 * 4 < 64 := by omega
      simp only [base64Encode, base64Decode,
        charToSextet_sextetToChar h1, charToSextet_sextetToChar h2,
        charToSextet_sextetToChar h3]
      rw [if_neg (sextetToChar_ne_pad h3)]
      simp
      omega
  | a :: b :: c :: rest, h => by
      have ha : a < 256 := h a (by simp)
      have hb : b < 256 := h b (by simp)
      have hc : c < 256 := h c (by simp)
      have h1 : a / 4 < 64 := by omega
      have h2 : a % 4 * 16 + b / 16 < 64 := by omega
      have h3 : b % 16 * 4 + c / 64 < 64 := by omega
      have h4 : c % 64 < 64 := by omega
      have ih : base64Decode (base64Encode rest) = some rest :=
        base64_roundtrip rest (fun x hx => h x (by simp [hx]))
      simp only [base64Encode, base64Decode,
        charToSextet_sextetToChar h1, charToSextet_sextetToChar h2,
        charToSextet_sextetToChar h3, charToSextet_sextetToChar h4]
      rw [if_neg (sextetToChar_ne_pad h3), if_neg (sextetToChar_ne_pad h4)]
      rw [ih]
      simp
      omega

theorem stopPoll_success (obs : Nat → Bool) :
    ∀ (k a i : Nat), obs (i + k) = false →
      (∀ j, j < k → obs (i + j) = true) → a + k ≤ 50 →
      stopPoll obs a i = (a + k, i + k)
  | 0, a, i, hf, _, _ => by
      rw [stopPoll, if_neg]
      · simp
      · intro hc
        exact absurd hc.1 (by simpa using hf)
  | k + 1, a, i, hf, hj, hb => by
      have h0 : obs i = true := by simpa using hj 0 (Nat.succ_pos k)
      rw [stopPoll, if_pos ⟨h0, by omega⟩]
      rw [stopPoll_success obs k (a + 1) (i + 1)
        (by rw [show i + 1 + k = i + (k + 1) from by omega]; exact hf)
        (fun j hjk => by
          rw [show i + 1 + j = i + (j + 1) from by omega]
          exact hj (j + 1) (by omega))
        (by omega)]
      rw [show a + 1 + k = a + (k + 1) from by omega,
          show i + 1 + k = i + (k + 1) from by omega]

theorem stopPoll_timeout (obs : Nat → Bool) (h : ∀ j, obs j = true) :
    ∀ (n a i : Nat), 50 - a ≤ n → a ≤ 50 →
      stopPoll obs a i = (50, i + (50 - a))
  | 0, a, i, hn, ha => by
      have h50 : a = 50 := by omega
      subst h50
      rw [stopPoll, if_neg]
      · simp
      · intro hc
        exact absurd hc.2 (by omega)
  | n + 1, a, i, hn, ha => by
      by_cases hlt : a < 50
      · rw [stopPoll, if_pos ⟨h i, hlt⟩]
        rw [stopPoll_timeout obs h n (a + 1) (i + 1) (by omega) (by omega)]
        rw [show i + 1 + (50 - (a + 1)) = i + (50 - a) from by omega]
      · have h50 : a = 50 := by omega
        subst h50
        rw [stopPoll, if_neg]
        · simp
        · intro hc
          exact absurd hc.2 (by omega)

theorem stopPoll_fst_le (obs : Nat → Bool) :
    ∀ (n a i : Nat), 50 - a ≤ n → a ≤ 50 → (stopPoll obs a i).1 ≤ 50
  | 0, a, i, hn, ha => by
    rw [stopPoll, if_neg]
    · exact ha
    · intro hc
      exact absurd hc.2 (by omega)
  | n + 1, a, i, hn, ha => by
    by_cases hc : obs i = true ∧ a < 50
    · rw [stopPoll, if_pos hc]
      exact stopPoll_fst_le obs n (a + 1) (i + 1) (by omega) (by omega)
    · rw [stopPoll, if_neg hc]
      exact ha

theorem cycle_skip (enc : Nat → List Nat → Option (List Nat)) (env : CycleEnv)
    (slot : Option (List Nat)) (h : cycleSucceeds enc env = false) :
    (runCycle enc env slot).events = [] ∧ (runCycle enc env slot).slot = slot := by
  cases hf : env.frameRes with
  | error e => simp [runCycle, cycleCore, hf]
  | ok o =>
    cases o with
    | none => simp [runCycle, cycleCore, hf]
    | some d =>
      simp only [cycleSucceeds, hf] at h
      by_cases hfit : d.width * d.height * 3 ≤ d.pixels.length
      · rw [decide_eq_true hfit, Bool.true_and] at h
        cases he : enc JPEG_QUALITY d.pixels with
        | none => simp [runCycle, cycleCore, hf, hfit, he]
        | some j => rw [he] at h; simp at h
      · simp [runCycle, cycleCore, hf, hfit]

/-! ## Claim theorems -/

/-- Claim C1: the claim states that `start_camera_stream`, when the running
flag is false, marks running true before returning, and that consequently at
most one CaptureLoop worker is ever active.  The code behaves otherwise:
`CAMERA_RUNNING` is stored only by the spawned worker's first instruction,
so after a single start call from the idle state `running` is still false,
and a second start call issued before the first worker runs passes the
running check and spawns a second worker: two workers are active (and both
reach the streaming phase once scheduled).  The no-op branch for
`running = true` does hold. -/
theorem c1_start_race :
    (execTrace [SysAction.callStart] initSys).running = false ∧
    activeWorkers
      (execTrace [SysAction.callStart, SysAction.callStart] initSys) = 2 ∧
    streamingWorkers
      (execTrace [SysAction.callStart, SysAction.callStart,
        SysAction.workerBegin 0, SysAction.workerBegin 1] initSys) = 2 ∧
    start_camera_stream ⟨true, false, [WorkerPhase.streaming]⟩ =
      (⟨true, false, [WorkerPhase.streaming]⟩, "Camera already running") := by
  refine ⟨rfl, rfl, rfl, rfl⟩

/-- Claim C2: when the device opens and the stream activates, the worker,
after the loop exits on the observed stop signal, releases the stream,
clears the shared frame slot, sets running to false and resets the stop
signal to false. -/
theorem c2_draining (enc : Nat → List Nat → Option (List Nat))
    (env : WorkerEnv) (slot0 : Option (List Nat)) (sig0 : Bool)
    (h1 : env.openCamera = Except.ok ())
    (h2 : env.openStream = Except.ok ()) :
    (run_camera_stream enc env slot0 sig0).released = true ∧
    (run_camera_stream enc env slot0 sig0).slot = none ∧
    (run_camera_stream enc env slot0 sig0).running = false ∧
    (run_camera_stream enc env slot0 sig0).stopSignal = false := by
  simp [run_camera_stream, h1, h2]

/-- Witness for C2 at a concrete worker environment. -/
theorem c2_draining_witness :
    (run_camera_stream (fun _ _ => none)
       ⟨Except.ok (), Except.ok (), []⟩ (some [7]) true).released = true ∧
    (run_camera_stream (fun _ _ => none)
       ⟨Except.ok (), Except.ok (), []⟩ (some [7]) true).slot = none ∧
    (run_camera_stream (fun _ _ => none)
       ⟨Except.ok (), Except.ok (), []⟩ (some [7]) true).running = false ∧
    (run_camera_stream (fun _ _ => none)
       ⟨Except.ok (), Except.ok (), []⟩ (some [7]) true).stopSignal = false :=
  c2_draining (fun _ _ => none) ⟨Except.ok (), Except.ok (), []⟩ (some [7])
    true rfl rfl

/-- Claim C5: with the shared frame slot empty, `capture_photo` returns a
soft failure with the "no frame available" message, emits a photo-saved
event carrying the same failure, performs no filesystem access, and leaves
the slot and the controller flags untouched. -/
theorem c5_no_frame (env : PhotoEnv) (flags : CamFlags) :
    (capture_photo env none flags).result =
      Except.ok ⟨"", false, some "No frame available. Is the camera streaming?"⟩ ∧
    (capture_photo env none flags).events =
      [Event.photoSaved "" false
        (some "No frame available. Is the camera streaming?")] ∧
    (capture_photo env none flags).fsOps = [] ∧
    (capture_photo env none flags).slot = none ∧
    (capture_photo env none flags).flags = flags :=
  ⟨rfl, rfl, rfl, rfl, rfl⟩

/-- Claim C7: in a successful capture cycle the pixel buffer is encoded
exactly once, at quality 85; the single encoding's bytes are stored in the
shared slot and emitted in the camera-frame event as a base64 payload with
the `data:image/jpeg;base64,` prefix together with the frame's dimensions,
and decoding that payload returns exactly the slot bytes. -/
theorem c7_encode_once (enc : Nat → List Nat → Option (List Nat))
    (env : CycleEnv) (slot : Option (List Nat)) (d : DecodedImage)
    (jpeg : List Nat)
    (hf : env.frameRes = Except.ok (some d))
    (hfit : d.width * d.height * 3 ≤ d.pixels.length)
    (henc : enc JPEG_QUALITY d.pixels = some jpeg)
    (hb : ∀ b ∈ jpeg, b < 256) :
    (runCycle enc env slot).encodeCalls = [(85, d.pixels)] ∧
    JPEG_QUALITY = 85 ∧
    (runCycle enc env slot).slot = some jpeg ∧
    (runCycle enc env slot).events =
      [Event.cameraFrame
        ("data:image/jpeg;base64," ++ String.mk (base64Encode jpeg))
        d.width d.height] ∧
    base64Decode (base64Encode jpeg) = some jpeg := by
  have henc85 : enc 85 d.pixels = some jpeg := henc
  refine ⟨?_, rfl, ?_, ?_, base64_roundtrip jpeg hb⟩ <;>
    simp [runCycle, cycleCore, hf, hfit, henc85, JPEG_QUALITY]

/-- Witness for C7 at a concrete cycle environment and encoder. -/
theorem c7_encode_once_witness :
    (runCycle (fun _ _ => some [255, 0, 77])
       ⟨Except.ok (some ⟨1, 1, [5, 6, 7]⟩), 0⟩ none).encodeCalls =
      [(85, [5, 6, 7])] ∧
    JPEG_QUALITY = 85 ∧
    (runCycle (fun _ _ => some [255, 0, 77])
       ⟨Except.ok (some ⟨1, 1, [5, 6, 7]⟩), 0⟩ none).slot = some [255, 0, 77] ∧
    (runCycle (fun _ _ => some [255, 0, 77])
       ⟨Except.ok (some ⟨1, 1, [5, 6, 7]⟩), 0⟩ none).events =
      [Event.cameraFrame
        ("data:image/jpeg;base64," ++ String.mk (base64Encode [255, 0, 77]))
        1 1] ∧
    base64Decode (base64Encode [255, 0, 77]) = some [255, 0, 77] :=
  c7_encode_once (fun _ _ => some [255, 0, 77])
    ⟨Except.ok (some ⟨1, 1, [5, 6, 7]⟩), 0⟩ none ⟨1, 1, [5, 6, 7]⟩
    [255, 0, 77] rfl (by decide) rfl (by decide)

/-- Claim C9: at the end of every cycle, if the elapsed time is below the
fixed interval (1000 ms divided by the target rate 25, i.e. 40 ms) the
worker sleeps exactly the difference; otherwise it does not sleep at all. -/
theorem c9_pacing :
    (∀ (enc : Nat → List Nat → Option (List Nat)) (env : CycleEnv)
        (slot : Option (List Nat)), env.elapsedNs < FRAME_INTERVAL_NS →
        (runCycle enc env slot).sleepNs = FRAME_INTERVAL_NS - env.elapsedNs) ∧
    (∀ (enc : Nat → List Nat → Option (List Nat)) (env : CycleEnv)
        (slot : Option (List Nat)), FRAME_INTERVAL_NS ≤ env.elapsedNs →
        (runCycle enc env slot).sleepNs = 0) ∧
    FRAME_INTERVAL_NS = 1000 / TARGET_FPS * 1000000 ∧
    FRAME_INTERVAL_NS = 40000000 := by
  refine ⟨?_, ?_, rfl, rfl⟩
  · intro enc env slot h
    show paceSleepNs env.elapsedNs = _
    rw [paceSleepNs, if_pos h]
  · intro enc env slot h
    show paceSleepNs env.elapsedNs = 0
    rw [paceSleepNs, if_neg (by omega)]

/-- Witness for C9: a 10 ms cycle sleeps 30 ms worth of nanoseconds, a 40 ms
cycle does not sleep. -/
theorem c9_pacing_witness :
    (runCycle (fun _ _ => none) ⟨Except.ok none, 10000000⟩ none).sleepNs =
      30000000 ∧
    (runCycle (fun _ _ => none) ⟨Except.ok none, 40000000⟩ none).sleepNs = 0 := by
  constructor
  · rw [c9_pacing.1 (fun _ _ => none) ⟨Except.ok none, 10000000⟩ none
      (by decide)]
    decide
  · exact c9_pacing.2.1 (fun _ _ => none) ⟨Except.ok none, 40000000⟩ none
      (by decide)

/-- Claim C10: the shared frame slot is written only on the all-successful
path of a cycle; whenever the pull, decode, buffer construction or encode
fails, the slot is left unchanged. -/
theorem c10_slot_effect (enc : Nat → List Nat → Option (List Nat))
    (env : CycleEnv) (slot : Option (List Nat)) :
    (cycleSucceeds enc env = false → (runCycle enc env slot).slot = slot) ∧
    (cycleSucceeds enc env = true →
      ∀ (d : DecodedImage) (jpeg : List Nat),
        env.frameRes = Except.ok (some d) →
        enc JPEG_QUALITY d.pixels = some jpeg →
        (runCycle enc env slot).slot = some jpeg) := by
  constructor
  · intro h
    exact (cycle_skip enc env slot h).2
  · intro h d jpeg hf henc
    have hfit : d.width * d.height * 3 ≤ d.pixels.length := by
      simp only [cycleSucceeds, hf] at h
      by_contra hn
      rw [decide_eq_false hn, Bool.false_and] at h
      exact Bool.false_ne_true h
    simp [runCycle, cycleCore, hf, hfit, henc]

/-- Witness for C10: a failed pull leaves the slot unchanged, a successful
cycle installs the encoder's output. -/
theorem c10_slot_effect_witness :
    (runCycle (fun _ _ => none) ⟨Except.error "pull", 0⟩ (some [9])).slot =
      some [9] ∧
    (runCycle (fun _ _ => some [1, 2])
       ⟨Except.ok (some ⟨1, 1, [0, 0, 0]⟩), 0⟩ (some [9])).slot = some [1, 2] :=
  ⟨(c10_slot_effect (fun _ _ => none) ⟨Except.error "pull", 0⟩ (some [9])).1
      (by decide),
   (c10_slot_effect (fun _ _ => some [1, 2])
       ⟨Except.ok (some ⟨1, 1, [0, 0, 0]⟩), 0⟩ (some [9])).2 (by decide)
      ⟨1, 1, [0, 0, 0]⟩ [1, 2] rfl rfl⟩

/-- Claim C3: `stop_camera_stream` with the running flag already false
returns success immediately, setting no flag and performing no sleep; with
the running flag true it writes the stop signal once and polls in 50 ms
sleeps, at most 50 of them, returning success as soon as the running flag
is observed false and a timeout failure, with the flags left as they are,
when the flag stays true past the bound. -/
theorem c3_stop_protocol :
    (∀ obs : Nat → Bool, obs 0 = false →
        stop_camera_stream obs = ⟨Except.ok "Camera not running", [], []⟩) ∧
    (∀ obs : Nat → Bool, (stop_camera_stream obs).sleepsMs.length ≤ 50 ∧
        ∀ d ∈ (stop_camera_stream obs).sleepsMs, d = 50) ∧
    (∀ (obs : Nat → Bool) (k : Nat), k ≤ 50 →
        (∀ i, i ≤ k → obs i = true) → (∀ j, k + 1 ≤ j → obs j = false) →
        stop_camera_stream obs =
          ⟨Except.ok "Camera stream stopped", [true], List.replicate k 50⟩) ∧
    (∀ obs : Nat → Bool, (∀ i, obs i = true) →
        stop_camera_stream obs =
          ⟨Except.error "Camera failed to stop in time", [true],
           List.replicate 50 50⟩) := by
  refine ⟨?_, ?_, ?_, ?_⟩
  · intro obs h
    rw [stop_camera_stream, if_pos h]
  · intro obs
    by_cases h0 : obs 0 = false
    · rw [stop_camera_stream, if_pos h0]
      simp
    · rw [stop_camera_stream, if_neg h0]
      have hle : (stopPoll obs 0 1).1 ≤ 50 :=
        stopPoll_fst_le obs 50 0 1 (by omega) (by omega)
      constructor
      · by_cases hfin : obs ((stopPoll obs 0 1).2 + 1) = true
        · rw [if_pos hfin]
          simpa using hle
        · rw [if_neg hfin]
          simpa using hle
      · intro d hd
        by_cases hfin : obs ((stopPoll obs 0 1).2 + 1) = true
        · rw [if_pos hfin] at hd
          exact List.eq_of_mem_replicate hd
        · rw [if_neg hfin] at hd
          exact List.eq_of_mem_replicate hd
  · intro obs k hk hT hF
    have h0 : obs 0 = true := hT 0 (Nat.zero_le k)
    have hp : stopPoll obs 0 1 = (0 + k, 1 + k) := by
      apply stopPoll_success
      · rw [show 1 + k = k + 1 from by omega]
        exact hF (k + 1) (Nat.le_refl _)
      · intro j hj
        exact hT (1 + j) (by omega)
      · omega
    have hfin : obs (1 + k + 1) = false := hF (1 + k + 1) (by omega)
    rw [stop_camera_stream, if_neg (by simp [h0])]
    simp only [hp]
    rw [if_neg (by simp [hfin])]
    rw [show 0 + k = k from by omega]
  · intro obs hT
    have hp : stopPoll obs 0 1 = (50, 1 + (50 - 0)) :=
      stopPoll_timeout obs hT 50 0 1 (by omega) (by omega)
    rw [stop_camera_stream, if_neg (by simp [hT 0])]
    simp only [hp]
    rw [if_pos (hT _)]

/-- Witness for C3: an oracle that is never true (immediate no-op), one that
turns false after one sleep (success), and one that never turns false
(timeout). -/
theorem c3_stop_protocol_witness :
    stop_camera_stream (fun _ => false) =
      ⟨Except.ok "Camera not running", [], []⟩ ∧
    stop_camera_stream (fun i => decide (i < 2)) =
      ⟨Except.ok "Camera stream stopped", [true], List.replicate 1 50⟩ ∧
    stop_camera_stream (fun _ => true) =
      ⟨Except.error "Camera failed to stop in time", [true],
       List.replicate 50 50⟩ := by
  refine ⟨c3_stop_protocol.1 (fun _ => false) rfl, ?_,
    c3_stop_protocol.2.2.2 (fun _ => true) (fun _ => rfl)⟩
  exact c3_stop_protocol.2.2.1 (fun i => decide (i < 2)) 1 (by omega)
    (fun i hi => by simp; omega) (fun j hj => by simp; omega)

/-- Claim C4: with a frame in the slot, a resolvable pictures directory and
a successful write, `capture_photo` writes exactly the slot's bytes to
`<pictures>/honeybee-camera/IMG_<timestamp>.jpg`, creates the directory
when absent, returns success with the full resolved path, emits the same
result as a photo-saved event, and mutates neither the slot nor the
controller flags. -/
theorem c4_photo_write (env : PhotoEnv) (data : List Nat) (flags : CamFlags)
    (pics : String)
    (hp : env.picturesDir = some pics)
    (hw : env.writeRes = Except.ok ())
    (hd : env.dirExists = true ∨
      (env.dirExists = false ∧ env.createDirRes = Except.ok ())) :
    (capture_photo env (some data) flags).result =
      Except.ok ⟨pics ++ "/honeybee-camera" ++ "/" ++
        ("IMG_" ++ formatTimestamp env.now ++ ".jpg"), true, none⟩ ∧
    (capture_photo env (some data) flags).events =
      [Event.photoSaved (pics ++ "/honeybee-camera" ++ "/" ++
        ("IMG_" ++ formatTimestamp env.now ++ ".jpg")) true none] ∧
    FsOp.writeFile (pics ++ "/honeybee-camera" ++ "/" ++
        ("IMG_" ++ formatTimestamp env.now ++ ".jpg")) data ∈
      (capture_photo env (some data) flags).fsOps ∧
    (∀ (p : String) (b : List Nat),
        FsOp.writeFile p b ∈ (capture_photo env (some data) flags).fsOps →
        p = pics ++ "/honeybee-camera" ++ "/" ++
          ("IMG_" ++ formatTimestamp env.now ++ ".jpg") ∧ b = data) ∧
    (env.dirExists = false →
        FsOp.createDir (pics ++ "/honeybee-camera") ∈
          (capture_photo env (some data) flags).fsOps) ∧
    (capture_photo env (some data) flags).slot = some data ∧
    (capture_photo env (some data) flags).flags = flags := by
  rcases hd with hd | ⟨hd, hc⟩
  · refine ⟨?_, ?_, ?_, ?_, ?_, ?_, ?_⟩ <;>
      simp [capture_photo, writePhase, hp, hw, hd]
  · refine ⟨?_, ?_, ?_, ?_, ?_, ?_, ?_⟩ <;>
      simp [capture_photo, writePhase, hp, hw, hd, hc]

/-- Witness for C4 at a concrete environment with the directory present. -/
theorem c4_photo_write_witness :
    (capture_photo
        ⟨some "/home/bee/Pictures", true, Except.ok (), Except.ok (),
          ⟨2026, 10, 12, 13, 9, 5⟩⟩ (some [1, 2, 3]) ⟨true, false⟩).result =
      Except.ok ⟨"/home/bee/Pictures" ++ "/honeybee-camera" ++ "/" ++
        ("IMG_" ++ formatTimestamp ⟨2026, 10, 12, 13, 9, 5⟩ ++ ".jpg"),
        true, none⟩ ∧
    FsOp.writeFile ("/home/bee/Pictures" ++ "/honeybee-camera" ++ "/" ++
        ("IMG_" ++ formatTimestamp ⟨2026, 10, 12, 13, 9, 5⟩ ++ ".jpg"))
        [1, 2, 3] ∈
      (capture_photo
        ⟨some "/home/bee/Pictures", true, Except.ok (), Except.ok (),
          ⟨2026, 10, 12, 13, 9, 5⟩⟩ (some [1, 2, 3]) ⟨true, false⟩).fsOps ∧
    (capture_photo
        ⟨some "/home/bee/Pictures", true, Except.ok (), Except.ok (),
          ⟨2026, 10, 12, 13, 9, 5⟩⟩ (some [1, 2, 3]) ⟨true, false⟩).slot =
      some [1, 2, 3] := by
  have h := c4_photo_write
    ⟨some "/home/bee/Pictures", true, Except.ok (), Except.ok (),
      ⟨2026, 10, 12, 13, 9, 5⟩⟩ [1, 2, 3] ⟨true, false⟩ "/home/bee/Pictures"
    rfl rfl (Or.inl rfl)
  exact ⟨h.1, h.2.2.1, h.2.2.2.2.2.1⟩

/-- Claim C6 counterexample: with a frame present but the pictures location
unresolvable, `capture_photo` propagates the failure as an error on the
request path and emits no photo-saved event, so not every failure is
reported as a structured PhotoSaveResult. -/
theorem c6_counterexample :
    (capture_photo ⟨none, false, Except.ok (), Except.ok (),
        ⟨2026, 1, 1, 0, 0, 0⟩⟩ (some [1, 2, 3]) ⟨false, false⟩).result =
      Except.error "Failed to get Pictures directory" ∧
    (capture_photo ⟨none, false, Except.ok (), Except.ok (),
        ⟨2026, 1, 1, 0, 0, 0⟩⟩ (some [1, 2, 3]) ⟨false, false⟩).events = [] :=
  ⟨rfl, rfl⟩

/-- Claim C6 as amended: the no-frame case and the file-write failure are
reported as a structured result with success=false and are also emitted as
a photo-saved event; failures while resolving the pictures directory or
creating the photo directory are instead propagated as errors on the
request path, with no event emitted. -/
theorem c6_failure_reporting :
    (∀ (env : PhotoEnv) (flags : CamFlags),
        (capture_photo env none flags).result = Except.ok
          ⟨"", false, some "No frame available. Is the camera streaming?"⟩ ∧
        (capture_photo env none flags).events = [Event.photoSaved "" false
          (some "No frame available. Is the camera streaming?")]) ∧
    (∀ (env : PhotoEnv) (data : List Nat) (flags : CamFlags) (pics e : String),
        env.picturesDir = some pics → env.dirExists = true →
        env.writeRes = Except.error e →
        (capture_photo env (some data) flags).result = Except.ok
          ⟨"", false, some ("Failed to save photo: " ++ e)⟩ ∧
        (capture_photo env (some data) flags).events = [Event.photoSaved ""
          false (some ("Failed to save photo: " ++ e))]) ∧
    (∀ (env : PhotoEnv) (data : List Nat) (flags : CamFlags),
        env.picturesDir = none →
        (capture_photo env (some data) flags).result =
          Except.error "Failed to get Pictures directory" ∧
        (capture_photo env (some data) flags).events = []) ∧
    (∀ (env : PhotoEnv) (data : List Nat) (flags : CamFlags) (pics e : String),
        env.picturesDir = some pics → env.dirExists = false →
        env.createDirRes = Except.error e →
        (capture_photo env (some data) flags).result =
          Except.error ("Failed to create camera directory: " ++ e) ∧
        (capture_photo env (some data) flags).events = []) := by
  refine ⟨fun env flags => ⟨rfl, rfl⟩, ?_, ?_, ?_⟩
  · intro env data flags pics e hp hd hw
    constructor <;> simp [capture_photo, writePhase, hp, hd, hw]
  · intro env data flags hp
    constructor <;> simp [capture_photo, hp]
  · intro env data flags pics e hp hd hc
    constructor <;> simp [capture_photo, hp, hd, hc]

/-- Witness for C6 (amended): each of the four failure-reporting branches at
a concrete environment. -/
theorem c6_failure_reporting_witness :
    (capture_photo ⟨some "/p", true, Except.ok (), Except.ok (),
        ⟨2026, 1, 1, 0, 0, 0⟩⟩ none ⟨false, false⟩).result = Except.ok
      ⟨"", false, some "No frame available. Is the camera streaming?"⟩ ∧
    (capture_photo ⟨some "/p", true, Except.ok (), Except.error "disk full",
        ⟨2026, 1, 1, 0, 0, 0⟩⟩ (some [4]) ⟨false, false⟩).result = Except.ok
      ⟨"", false, some ("Failed to save photo: " ++ "disk full")⟩ ∧
    (capture_photo ⟨none, true, Except.ok (), Except.ok (),
        ⟨2026, 1, 1, 0, 0, 0⟩⟩ (some [4]) ⟨false, false⟩).result =
      Except.error "Failed to get Pictures directory" ∧
    (capture_photo ⟨some "/p", false, Except.error "denied", Except.ok (),
        ⟨2026, 1, 1, 0, 0, 0⟩⟩ (some [4]) ⟨false, false⟩).result =
      Except.error ("Failed to create camera directory: " ++ "denied") :=
  ⟨(c6_failure_reporting.1 _ ⟨false, false⟩).1,
   (c6_failure_reporting.2.1 _ [4] ⟨false, false⟩ "/p" "disk full" rfl rfl
      rfl).1,
   (c6_failure_reporting.2.2.1 _ [4] ⟨false, false⟩ rfl).1,
   (c6_failure_reporting.2.2.2 _ [4] ⟨false, false⟩ "/p" "denied" rfl rfl
      rfl).1⟩

/-- Claim C8: only device-open failure and stream-activation failure are
fatal: each emits exactly one camera-error event, leaves running false and
never enters the streaming loop; a cycle that fails at any per-frame stage
emits no event, leaves the slot unchanged, and the loop continues with the
remaining cycles unaffected. -/
theorem c8_failure_semantics :
    (∀ (enc : Nat → List Nat → Option (List Nat)) (env : WorkerEnv)
        (slot0 : Option (List Nat)) (sig0 : Bool) (e : String),
        env.openCamera = Except.error e →
        run_camera_stream enc env slot0 sig0 =
          ⟨false, sig0, slot0,
           [Event.cameraError ("Failed to open camera: " ++ e)],
           false, false⟩) ∧
    (∀ (enc : Nat → List Nat → Option (List Nat)) (env : WorkerEnv)
        (slot0 : Option (List Nat)) (sig0 : Bool) (e : String),
        env.openCamera = Except.ok () → env.openStream = Except.error e →
        run_camera_stream enc env slot0 sig0 =
          ⟨false, sig0, slot0,
           [Event.cameraError ("Failed to start camera stream: " ++ e)],
           false, false⟩) ∧
    (∀ (enc : Nat → List Nat → Option (List Nat)) (c : CycleEnv)
        (rest : List CycleEnv) (slot : Option (List Nat)),
        cycleSucceeds enc c = false →
        (runCycle enc c slot).events = [] ∧
        (runCycle enc c slot).slot = slot ∧
        runCycles enc (c :: rest) slot = runCycles enc rest slot) := by
  refine ⟨?_, ?_, ?_⟩
  · intro enc env slot0 sig0 e h
    simp [run_camera_stream, h]
  · intro enc env slot0 sig0 e h1 h2
    simp [run_camera_stream, h1, h2]
  · intro enc c rest slot h
    have hs := cycle_skip enc c slot h
    refine ⟨hs.1, hs.2, ?_⟩
    simp only [runCycles, hs.1, hs.2, List.nil_append]

/-- Witness for C8: a failed device open, a failed stream activation, and a
skipped cycle inside a two-cycle run, each at concrete inputs. -/
theorem c8_failure_semantics_witness :
    run_camera_stream (fun _ _ => none)
        ⟨Except.error "busy", Except.ok (), []⟩ (some [3]) false =
      ⟨false, false, some [3],
       [Event.cameraError ("Failed to open camera: " ++ "busy")],
       false, false⟩ ∧
    run_camera_stream (fun _ _ => none)
        ⟨Except.ok (), Except.error "fmt", []⟩ (some [3]) false =
      ⟨false, false, some [3],
       [Event.cameraError ("Failed to start camera stream: " ++ "fmt")],
       false, false⟩ ∧
    runCycles (fun _ _ => none)
        [⟨Except.error "pull", 0⟩, ⟨Except.error "pull", 0⟩] (some [3]) =
      runCycles (fun _ _ => none) [⟨Except.error "pull", 0⟩] (some [3]) :=
  ⟨c8_failure_semantics.1 (fun _ _ => none)
      ⟨Except.error "busy", Except.ok (), []⟩ (some [3]) false "busy" rfl,
   c8_failure_semantics.2.1 (fun _ _ => none)
      ⟨Except.ok (), Except.error "fmt", []⟩ (some [3]) false "fmt" rfl rfl,
   (c8_failure_semantics.2.2 (fun _ _ => none) ⟨Except.error "pull", 0⟩
      [⟨Except.error "pull", 0⟩] (some [3]) (by decide)).2.2⟩

end QueenBee
